import Mathlib

/-
Verification development for the custom-scroll scrollbar widget
(src/index.js, class CustomScrollbarBase and its two orientation
subclasses).

The embedding models the per-instance reactive store state (the fields
passed to createStore in the constructor, src/index.js lines 31-43) as a
record of rationals, and each method of CustomScrollbarBase as a state
transformer.  JavaScript numbers are modelled as ℚ: every operation the
widget performs (+, -, *, /, Math.max, Math.min) is exact on rationals,
and the spec's arithmetic is stated over real numbers.  JS truthiness
tests on numbers (`available ? x : 0`) are modelled as `≠ 0` tests.

DOM reads are modelled as explicit inputs:
  * `this.track.offsetWidth` / `offsetHeight` (read inside `update`)
    becomes the parameter `trackSizePx`;
  * the pointer coordinate relevant to the axis (`e.clientX` or
    `e.clientY`, selected by `orientation`) becomes the parameter
    `pointerPos`; the `orientation` field only selects which coordinate
    and which style attribute is used, so it is not part of the model;
  * `Number.parseFloat(this.thumb.style.left) || 0` in `onDragStart`
    reads back the pixel position that `updateThumb` last wrote, which is
    the stored `thumbPosition` (initially 0, matching the `|| 0` default).
-/

namespace CustomScroll

/-- State of one scrollbar instance: the numeric and interaction fields of
the store created in the constructor (src/index.js lines 31-43).  The
`container` and `orientation` fields are omitted: the former is an opaque
DOM handle, the latter only selects which physical coordinate feeds the
axis, which the model receives directly. -/
structure ScrollState where
  contentSize : ℚ
  visibleSize : ℚ
  scrollValue : ℚ
  thumbPosition : ℚ
  thumbSize : ℚ
  trackSize : ℚ
  dragging : Bool
  startPos : ℚ
  startThumbPos : ℚ
deriving Repr, DecidableEq

/-- Minimum thumb length in pixels, the literal 20 at src/index.js line 110. -/
def MIN_THUMB : ℚ := 20

/-- Commit step of `scrollTo(value)` (src/index.js lines 147-151):
`maxScroll = contentSize - visibleSize` (not clamped to 0 here);
`scrollValue = Math.max(0, Math.min(value, maxScroll))`; the clamped value
is written to the store on the scroll/changed channel. -/
def scrollTo (s : ScrollState) (value : ℚ) : ScrollState :=
  let maxScroll := s.contentSize - s.visibleSize
  let scrollValue := max 0 (min value maxScroll)
  { s with scrollValue := scrollValue }

/-- The JS return value of `scrollTo` (src/index.js lines 147-151): the
method body has no `return` statement, so the call evaluates to
`undefined`, modelled as `none`. -/
def scrollToReturn (_ : ScrollState) (_ : ℚ) : Option ℚ :=
  none

/-- `updateThumb()` (src/index.js lines 125-141): recomputes
`thumbPosition = scrollRatio * (trackSize - thumbSize)` where
`scrollRatio = maxScroll ? scrollValue / maxScroll : 0` with
`maxScroll = contentSize - visibleSize`, and writes it to the store (the
DOM style write carries the same value). -/
def updateThumb (s : ScrollState) : ScrollState :=
  let maxScroll := s.contentSize - s.visibleSize
  let scrollRatio := if maxScroll ≠ 0 then s.scrollValue / maxScroll else 0
  let maxThumbPos := s.trackSize - s.thumbSize
  { s with thumbPosition := scrollRatio * maxThumbPos }

/-- Full synchronous effect of a `scrollTo` call: the store write fires the
scroll/changed signal, whose second connected handler (src/index.js
line 87) runs `updateThumb`, all before `scrollTo` returns. -/
def scrollToPipeline (s : ScrollState) (value : ℚ) : ScrollState :=
  updateThumb (scrollTo s value)

/-- Modelled from the spec: the reactive store (`createStore` of
`@rvanbaalen/signals`) is not under src/; per the spec it is a black box
that updates state and notifies subscribers of a named event,
synchronously and in connection order.  The `onScroll` callback is
connected first (src/index.js line 83) and the internal `updateThumb`
handler second (line 87), so the state an `onScroll` observer can read
during the notification is the committed state before the geometry
handler has run. -/
def onScrollObserved (s : ScrollState) (value : ℚ) : ScrollState :=
  scrollTo s value

/-- `update(scrollValue)` (src/index.js lines 98-120): writes the given
`scrollValue` unclamped to the store on the scroll/changed channel (which
runs the connected `updateThumb` handler), reads the track's rendered size
(`trackSizePx`), recomputes `thumbSize = Math.max(trackSize * ratio, 20)`
with `ratio = contentSize > 0 ? visibleSize / contentSize : 0`, stores the
new `trackSize` and `thumbSize` without notification, then calls
`updateThumb()` directly. -/
def update (s : ScrollState) (scrollValue trackSizePx : ℚ) : ScrollState :=
  let s1 := updateThumb { s with scrollValue := scrollValue }
  let ratio := if s1.contentSize > 0 then s1.visibleSize / s1.contentSize else 0
  let thumbSize := max (trackSizePx * ratio) MIN_THUMB
  let s2 := { s1 with trackSize := trackSizePx, thumbSize := thumbSize }
  updateThumb s2

/-- `setContentSize(size)` (src/index.js lines 222-225): stores the new
`contentSize` (no notification), then calls `update` with the current
stored `scrollValue`.  `trackSizePx` is the track size `update` reads from
the DOM. -/
def setContentSize (s : ScrollState) (size trackSizePx : ℚ) : ScrollState :=
  let s1 := { s with contentSize := size }
  update s1 s1.scrollValue trackSizePx

/-- `setVisibleSize(size)` (src/index.js lines 231-234): same shape as
`setContentSize` for the `visibleSize` field. -/
def setVisibleSize (s : ScrollState) (size trackSizePx : ℚ) : ScrollState :=
  let s1 := { s with visibleSize := size }
  update s1 s1.scrollValue trackSizePx

/-- `onDragStart(e)` (src/index.js lines 157-169): records the
axis-relevant pointer coordinate as `startPos`, the thumb's rendered
position (last written by `updateThumb`, i.e. the stored `thumbPosition`)
as `startThumbPos`, and sets `dragging`. -/
def onDragStart (s : ScrollState) (pointerPos : ℚ) : ScrollState :=
  { s with dragging := true, startPos := pointerPos,
           startThumbPos := s.thumbPosition }

/-- `onDrag(e)` (src/index.js lines 175-193): no-op unless dragging;
otherwise clamps `startThumbPos + delta` to `[0, trackSize - thumbSize]`,
converts it to a scroll value via
`ratio = available ? newThumbPos / available : 0` and
`newScroll = ratio * (contentSize - visibleSize)`, and calls `scrollTo`. -/
def onDrag (s : ScrollState) (pointerPos : ℚ) : ScrollState :=
  if s.dragging then
    let delta := pointerPos - s.startPos
    let newThumbPos := max 0 (min (s.startThumbPos + delta) (s.trackSize - s.thumbSize))
    let available := s.trackSize - s.thumbSize
    let ratio := if available ≠ 0 then newThumbPos / available else 0
    let newScroll := ratio * (s.contentSize - s.visibleSize)
    scrollToPipeline s newScroll
  else s

/-- `onDragEnd(e)` (src/index.js lines 200-208): clears `dragging` when set. -/
def onDragEnd (s : ScrollState) : ScrollState :=
  if s.dragging then { s with dragging := false } else s

/-- Track click handler (src/index.js lines 61-76), for a click not on the
thumb: `clickPos` is the click coordinate relative to the track origin;
`newScroll = available ? ((clickPos - thumbSize / 2) / available) *
(contentSize - visibleSize) : 0` with `available = trackSize - thumbSize`;
then `scrollTo(newScroll)`. -/
def trackClick (s : ScrollState) (clickPos : ℚ) : ScrollState :=
  let available := s.trackSize - s.thumbSize
  let newScroll :=
    if available ≠ 0 then
      ((clickPos - s.thumbSize / 2) / available) * (s.contentSize - s.visibleSize)
    else 0
  scrollToPipeline s newScroll

/-- Read-only `scrollValue` getter (src/index.js lines 214-216). -/
def scrollValueGet (s : ScrollState) : ℚ :=
  s.scrollValue

/-- State invariant claimed by the spec for `scrollValue`:
`0 ≤ scrollValue ≤ max(0, contentSize − visibleSize)`. -/
def scrollInvariant (s : ScrollState) : Prop :=
  0 ≤ s.scrollValue ∧ s.scrollValue ≤ max 0 (s.contentSize - s.visibleSize)

/-- Fresh store state as created by the constructor for given content and
visible sizes (src/index.js lines 31-43), before the initial `update(0)`. -/
def initState (contentSize visibleSize : ℚ) : ScrollState :=
  { contentSize := contentSize
    visibleSize := visibleSize
    scrollValue := 0
    thumbPosition := 0
    thumbSize := 0
    trackSize := 0
    dragging := false
    startPos := 0
    startThumbPos := 0 }

/-- State of the spec's concrete scenario: `contentSize=2000`,
`visibleSize=500`, after the constructor's initial `update(0)` with a
rendered track size of 500 pixels. -/
def scenarioState : ScrollState :=
  update (initState 2000 500) 0 500

/-- Reachable state with a track shorter than the minimum thumb:
`contentSize=2000`, `visibleSize=500`, initial `update(0)` with a rendered
track size of 10 pixels, so `thumbSize = max(10 * 1/4, 20) = 20 > 10`. -/
def shortTrackState : ScrollState :=
  update (initState 2000 500) 0 10

/-- Reachable state whose thumb exactly fills the track:
`contentSize = visibleSize = 500` and track size 500 give
`thumbSize = max(500 * 1, 20) = 500 = trackSize`. -/
def fullThumbState : ScrollState :=
  update (initState 500 500) 0 500

/- Helper lemmas shared by the claim theorems. -/

/-- Committed value of the `scrollTo` write, unfolded. -/
theorem scrollTo_scrollValue (s : ScrollState) (v : ℚ) :
    (scrollTo s v).scrollValue = max 0 (min v (s.contentSize - s.visibleSize)) :=
  rfl

/-- The geometry recompute does not touch the committed scroll value. -/
theorem scrollToPipeline_scrollValue (s : ScrollState) (v : ℚ) :
    (scrollToPipeline s v).scrollValue = max 0 (min v (s.contentSize - s.visibleSize)) :=
  rfl

/-- Every `scrollTo` commit satisfies the scroll-value invariant. -/
theorem scrollInvariant_scrollTo (s : ScrollState) (v : ℚ) :
    scrollInvariant (scrollTo s v) := by
  refine ⟨le_max_left 0 _, ?_⟩
  show max 0 (min v (s.contentSize - s.visibleSize)) ≤ max 0 (s.contentSize - s.visibleSize)
  exact max_le (le_max_left 0 _) (le_trans (min_le_right _ _) (le_max_right 0 _))

/-- A full `scrollTo` call (commit plus geometry handler) satisfies the
scroll-value invariant. -/
theorem scrollInvariant_scrollToPipeline (s : ScrollState) (v : ℚ) :
    scrollInvariant (scrollToPipeline s v) :=
  scrollInvariant_scrollTo s v

/-- C1: for every state with `contentSize ≥ visibleSize ≥ 0` and every
input `v`, `scrollTo(v)` commits a scroll value in
`[0, contentSize - visibleSize]`; and for every state with
`contentSize < visibleSize`, every `scrollTo(v)` commits exactly 0. -/
theorem C1_scrollTo_commit_range (s : ScrollState) (v : ℚ) :
    (0 ≤ s.visibleSize → s.visibleSize ≤ s.contentSize →
      0 ≤ (scrollToPipeline s v).scrollValue ∧
        (scrollToPipeline s v).scrollValue ≤ s.contentSize - s.visibleSize) ∧
    (s.contentSize < s.visibleSize → (scrollToPipeline s v).scrollValue = 0) := by
  rw [scrollToPipeline_scrollValue]
  constructor
  · intro _ hvc
    refine ⟨le_max_left 0 _, ?_⟩
    exact max_le (sub_nonneg.mpr hvc) (min_le_right _ _)
  · intro hcv
    have hneg : min v (s.contentSize - s.visibleSize) ≤ 0 :=
      le_of_lt (lt_of_le_of_lt (min_le_right _ _) (sub_neg.mpr hcv))
    exact max_eq_left hneg

/-- C1 witness: concrete instances of both branches, at
`contentSize=2000, visibleSize=500, v=10000` and the degenerate
`contentSize=100, visibleSize=500, v=10000`. -/
theorem C1_scrollTo_commit_range_witness :
    (0 ≤ (scrollToPipeline (initState 2000 500) 10000).scrollValue ∧
      (scrollToPipeline (initState 2000 500) 10000).scrollValue ≤ 2000 - 500) ∧
    (scrollToPipeline (initState 100 500) 10000).scrollValue = 0 :=
  ⟨(C1_scrollTo_commit_range (initState 2000 500) 10000).1
      (by norm_num [initState]) (by norm_num [initState]),
    (C1_scrollTo_commit_range (initState 100 500) 10000).2
      (by norm_num [initState])⟩

/-- C2 counterexample: the claimed invariant
`0 ≤ scrollValue ≤ max(0, contentSize − visibleSize)` fails after the
public mutation `setContentSize(600)` on a state previously scrolled to
1500 with `contentSize=2000, visibleSize=500`: the stored value stays
1500 while the bound shrinks to 100. -/
theorem C2_invariant_counterexample :
    (setContentSize (scrollToPipeline (initState 2000 500) 1500) 600 500).scrollValue = 1500 ∧
    max 0 ((setContentSize (scrollToPipeline (initState 2000 500) 1500) 600 500).contentSize -
      (setContentSize (scrollToPipeline (initState 2000 500) 1500) 600 500).visibleSize) = 100 ∧
    ¬ scrollInvariant (setContentSize (scrollToPipeline (initState 2000 500) 1500) 600 500) := by
  norm_num [scrollInvariant, setContentSize, update, updateThumb, scrollToPipeline,
    scrollTo, initState, MIN_THUMB]

/-- C2 amended: the invariant `0 ≤ scrollValue ≤ max(0, contentSize −
visibleSize)` holds after the mutations that commit through `scrollTo` —
`scrollTo` itself, the drag pointer-move handler, and the track-click
handler — but NOT after `setContentSize`, `setVisibleSize` or `update`,
which store without re-clamping. -/
theorem C2_invariant_amended (s : ScrollState) (v p c : ℚ) :
    scrollInvariant (scrollToPipeline s v) ∧
    scrollInvariant (onDrag { s with dragging := true } p) ∧
    scrollInvariant (trackClick s c) :=
  ⟨scrollInvariant_scrollToPipeline s v,
    scrollInvariant_scrollToPipeline _ _,
    scrollInvariant_scrollToPipeline s _⟩

/-- C3 counterexample: at `contentSize = 0` the recompute in `update`
takes ratio 0 and stores `thumbSize = max(trackSize * 0, 20) = 20`, not 0
as the claim states. -/
theorem C3_thumb_size_counterexample :
    (update (initState 0 500) 0 500).contentSize = 0 ∧
    (update (initState 0 500) 0 500).thumbSize = 20 ∧ ((20 : ℚ) ≠ 0) := by
  norm_num [update, updateThumb, initState, MIN_THUMB]

/-- C3 amended: after `update` with rendered track size `t`, the stored
`thumbSize` equals `max(t * visibleSize / contentSize, 20)` when
`contentSize > 0`, and equals 20 (the minimum thumb size, not 0) when
`contentSize = 0`. -/
theorem C3_thumb_size_amended (s : ScrollState) (v t : ℚ) :
    (0 < s.contentSize →
      (update s v t).thumbSize = max (t * (s.visibleSize / s.contentSize)) 20) ∧
    (s.contentSize = 0 → (update s v t).thumbSize = 20) := by
  constructor
  · intro hpos
    simp [update, updateThumb, MIN_THUMB, hpos]
  · intro hzero
    simp [update, updateThumb, MIN_THUMB, hzero]

/-- C3 witness: both branches at concrete states, `contentSize=2000,
visibleSize=500, t=500` and `contentSize=0, visibleSize=500, t=500`. -/
theorem C3_thumb_size_amended_witness :
    (update (initState 2000 500) 0 500).thumbSize = max ((500 : ℚ) * (500 / 2000)) 20 ∧
    (update (initState 0 500) 0 500).thumbSize = 20 :=
  ⟨(C3_thumb_size_amended (initState 2000 500) 0 500).1 (by norm_num [initState]),
    (C3_thumb_size_amended (initState 0 500) 0 500).2 (by norm_num [initState])⟩

/-- C4: for every state, `updateThumb` derives
`thumbPosition = scrollRatio * (trackSize - thumbSize)` with
`scrollRatio = scrollValue / maxScroll` when `maxScroll` is nonzero and 0
otherwise; and in the concrete scenario `contentSize=2000,
visibleSize=500, trackSize=500`: `scrollTo(-100)` commits 0,
`scrollTo(10000)` commits 1500, `scrollTo(750)` commits 750 with
`thumbSize` 125 and `thumbPosition` 187.5. -/
theorem C4_thumb_position_formula (s : ScrollState) :
    ((updateThumb s).thumbPosition =
      (if s.contentSize - s.visibleSize ≠ 0
        then s.scrollValue / (s.contentSize - s.visibleSize) else 0) *
        (s.trackSize - s.thumbSize)) ∧
    (scrollToPipeline scenarioState (-100)).scrollValue = 0 ∧
    (scrollToPipeline scenarioState 10000).scrollValue = 1500 ∧
    (scrollToPipeline scenarioState 750).scrollValue = 750 ∧
    (scrollToPipeline scenarioState 750).thumbSize = 125 ∧
    (scrollToPipeline scenarioState 750).thumbPosition = 375 / 2 := by
  refine ⟨rfl, ?_, ?_, ?_, ?_, ?_⟩ <;>
    norm_num [scenarioState, update, updateThumb, scrollToPipeline, scrollTo,
      initState, MIN_THUMB]

/-- C5: a pointer-move by `d` in a drag session started at thumb position
`p0` (with anchor pointer coordinate `q`), such that `p0 + d` stays within
`[0, trackSize - thumbSize]`, commits the same scroll value as a direct
`scrollTo` of `((p0 + d) / (trackSize - thumbSize)) * maxScroll`, the
ratio taken as 0 when the denominator is ≤ 0. -/
theorem C5_drag_roundtrip (s : ScrollState) (q d : ℚ)
    (h0 : 0 ≤ s.thumbPosition + d)
    (h1 : s.thumbPosition + d ≤ s.trackSize - s.thumbSize) :
    (onDrag (onDragStart s q) (q + d)).scrollValue =
      (scrollTo s
        ((if s.trackSize - s.thumbSize ≤ 0 then 0
          else (s.thumbPosition + d) / (s.trackSize - s.thumbSize)) *
          (s.contentSize - s.visibleSize))).scrollValue := by
  have hts : (0 : ℚ) ≤ s.trackSize - s.thumbSize := le_trans h0 h1
  by_cases hA : s.trackSize - s.thumbSize = 0
  · simp [onDrag, onDragStart, scrollToPipeline, scrollTo, updateThumb, hA,
      le_of_eq hA.symm]
  · have hpos : (0 : ℚ) < s.trackSize - s.thumbSize := lt_of_le_of_ne hts (Ne.symm hA)
    have hnle : ¬ (s.trackSize - s.thumbSize ≤ 0) := not_le.mpr hpos
    simp [onDrag, onDragStart, scrollToPipeline, scrollTo, updateThumb, hA, hnle,
      add_sub_cancel_left, min_eq_left h1, max_eq_right h0]

/-- C5 witness: drag round-trip at the concrete scenario state
(`trackSize=500, thumbSize=125, thumbPosition=0`), anchor pointer 10,
pointer moved by 100. -/
theorem C5_drag_roundtrip_witness :
    (onDrag (onDragStart scenarioState 10) (10 + 100)).scrollValue =
      (scrollTo scenarioState
        ((if scenarioState.trackSize - scenarioState.thumbSize ≤ 0 then 0
          else (scenarioState.thumbPosition + 100) /
            (scenarioState.trackSize - scenarioState.thumbSize)) *
          (scenarioState.contentSize - scenarioState.visibleSize))).scrollValue :=
  C5_drag_roundtrip scenarioState 10 100
    (by norm_num [scenarioState, update, updateThumb, initState, MIN_THUMB])
    (by norm_num [scenarioState, update, updateThumb, initState, MIN_THUMB])

/-- C6 counterexample: in the reachable state with `trackSize=10,
thumbSize=20` (so `trackSize - thumbSize = -10 ≤ 0`) and
`contentSize=2000, visibleSize=500`, a track click at coordinate 5
commits 750, not 0: the handler tests `available ? ... : 0` by JS
truthiness, so a negative denominator still goes through the formula. -/
theorem C6_track_click_counterexample :
    shortTrackState.trackSize - shortTrackState.thumbSize ≤ 0 ∧
    (trackClick shortTrackState 5).scrollValue = 750 ∧ ((750 : ℚ) ≠ 0) := by
  norm_num [shortTrackState, trackClick, scrollToPipeline, scrollTo, updateThumb,
    update, initState, MIN_THUMB]

/-- C6 amended: a track click not on the thumb commits the clamp of
`((clickPos - thumbSize/2) / (trackSize - thumbSize)) * maxScroll`
whenever `trackSize - thumbSize ≠ 0` (including negative denominators),
and commits 0 exactly when `trackSize - thumbSize = 0`. -/
theorem C6_track_click_amended (s : ScrollState) (c : ℚ) :
    (s.trackSize - s.thumbSize ≠ 0 →
      (trackClick s c).scrollValue =
        (scrollTo s (((c - s.thumbSize / 2) / (s.trackSize - s.thumbSize)) *
          (s.contentSize - s.visibleSize))).scrollValue) ∧
    (s.trackSize - s.thumbSize = 0 → (trackClick s c).scrollValue = 0) := by
  constructor
  · intro hA
    simp [trackClick, scrollToPipeline, scrollTo, updateThumb, hA]
  · intro hA
    have h1 : (trackClick s c).scrollValue =
        max 0 (min 0 (s.contentSize - s.visibleSize)) := by
      simp [trackClick, scrollToPipeline, scrollTo, updateThumb, hA]
    rw [h1]
    exact max_eq_left (min_le_left 0 _)

/-- C6 witness: both branches at concrete reachable states, a click at
coordinate 100 on the scenario state (`trackSize - thumbSize = 375`) and
on the full-thumb state (`trackSize - thumbSize = 0`). -/
theorem C6_track_click_amended_witness :
    (trackClick scenarioState 100).scrollValue =
      (scrollTo scenarioState (((100 - scenarioState.thumbSize / 2) /
        (scenarioState.trackSize - scenarioState.thumbSize)) *
        (scenarioState.contentSize - scenarioState.visibleSize))).scrollValue ∧
    (trackClick fullThumbState 100).scrollValue = 0 :=
  ⟨(C6_track_click_amended scenarioState 100).1
      (by norm_num [scenarioState, update, updateThumb, initState, MIN_THUMB]),
    (C6_track_click_amended fullThumbState 100).2
      (by norm_num [fullThumbState, update, updateThumb, initState, MIN_THUMB])⟩

/-- C7 counterexample: `update(-100)` on a state with `contentSize=2000,
visibleSize=500` stores the raw value -100, while `scrollTo(-100)` commits
the clamped value 0 — `update` writes `scrollValue` without any clamp. -/
theorem C7_update_counterexample :
    (update (initState 2000 500) (-100) 500).scrollValue = -100 ∧
    (scrollTo (initState 2000 500) (-100)).scrollValue = 0 ∧
    ((-100 : ℚ) ≠ 0) := by
  norm_num [update, updateThumb, scrollTo, initState, MIN_THUMB]

/-- C7 amended: `update(v)` stores `v` unclamped, so it commits the same
stored `scrollValue` as `scrollTo(v)` exactly on inputs the clamp leaves
unchanged, i.e. when `0 ≤ v ≤ contentSize - visibleSize`; out-of-range
inputs are stored as-is, unlike `scrollTo`. -/
theorem C7_update_vs_scrollTo (s : ScrollState) (v t : ℚ) :
    (update s v t).scrollValue = v ∧
    (0 ≤ v → v ≤ s.contentSize - s.visibleSize →
      (update s v t).scrollValue = (scrollTo s v).scrollValue) := by
  have hup : (update s v t).scrollValue = v := rfl
  refine ⟨hup, fun h0 h1 => ?_⟩
  rw [scrollTo_scrollValue, min_eq_left h1, max_eq_right h0, hup]

/-- C7 witness: agreement at the in-range input 750 on
`contentSize=2000, visibleSize=500`. -/
theorem C7_update_vs_scrollTo_witness :
    (update (initState 2000 500) 750 500).scrollValue =
      (scrollTo (initState 2000 500) 750).scrollValue :=
  (C7_update_vs_scrollTo (initState 2000 500) 750 500).2
    (by norm_num) (by norm_num [initState])

/-- C8: `setContentSize(s)` and `setVisibleSize(s)` leave the stored
`scrollValue` unchanged for every state and every size, even when the new
size shrinks `maxScroll` below the current value — no re-clamping happens
until the next `scrollTo`; concretely, shrinking `contentSize` to 600
after scrolling to 1500 leaves the stored value at 1500. -/
theorem C8_size_setters_preserve_scroll (s : ScrollState) (size t : ℚ) :
    ((setContentSize s size t).scrollValue = s.scrollValue ∧
      (setVisibleSize s size t).scrollValue = s.scrollValue) ∧
    (setContentSize (scrollToPipeline (initState 2000 500) 1500) 600 500).scrollValue
      = 1500 := by
  refine ⟨⟨rfl, rfl⟩, ?_⟩
  norm_num [setContentSize, update, updateThumb, scrollToPipeline, scrollTo,
    initState, MIN_THUMB]

/-- C9 counterexample: during the scroll-changed notification of
`scrollTo(750)` from the scenario state, the `onScroll` callback
(connected before the internal geometry handler) observes the committed
`scrollValue` 750 together with the stale `thumbPosition` 0, while the
geometry consistent with the commit — reached only after the notification
— is 187.5; so not every observer sees consistent derived geometry. -/
theorem C9_observer_counterexample :
    (onScrollObserved scenarioState 750).scrollValue = 750 ∧
    (onScrollObserved scenarioState 750).thumbPosition = 0 ∧
    (scrollToPipeline scenarioState 750).thumbPosition = 375 / 2 ∧
    ((0 : ℚ) ≠ 375 / 2) := by
  norm_num [onScrollObserved, scrollToPipeline, scrollTo, updateThumb,
    scenarioState, update, initState, MIN_THUMB]

/-- C9 amended: the clamped `scrollValue` write happens strictly before
the notification (the observed state already carries the committed
value), and the thumb-geometry recompute runs inside the notification
before `scrollTo` returns and preserves the commit — but the `onScroll`
callback, connected before the geometry handler, observes the
pre-existing `thumbPosition`, so only observers running after the
geometry handler (and the caller, once `scrollTo` returns) see geometry
consistent with the committed value. -/
theorem C9_commit_ordering (s : ScrollState) (v : ℚ) :
    (onScrollObserved s v).scrollValue = max 0 (min v (s.contentSize - s.visibleSize)) ∧
    (onScrollObserved s v).thumbPosition = s.thumbPosition ∧
    scrollToPipeline s v = updateThumb (onScrollObserved s v) ∧
    (scrollToPipeline s v).scrollValue = (onScrollObserved s v).scrollValue :=
  ⟨rfl, rfl, rfl, rfl⟩

/-- C10 counterexample: `scrollTo` has no return statement, so its JS
return value is `undefined` (`none`), not the committed value 1500 that
`scrollTo(10000)` stores from the scenario state. -/
theorem C10_return_counterexample :
    scrollToReturn scenarioState 10000 = none ∧
    (scrollToPipeline scenarioState 10000).scrollValue = 1500 ∧
    scrollToReturn scenarioState 10000 ≠
      some ((scrollToPipeline scenarioState 10000).scrollValue) := by
  refine ⟨rfl, ?_, by simp [scrollToReturn]⟩
  norm_num [scrollToPipeline, scrollTo, updateThumb, scenarioState, update,
    initState, MIN_THUMB]

/-- C10 amended: `scrollTo` returns `undefined` (it is `-> void`, as the
external-interface section says); the committed, possibly clamp-adjusted
value is not returned but is observable through the `scrollValue` getter
immediately after the call. -/
theorem C10_return_amended (s : ScrollState) (v : ℚ) :
    scrollToReturn s v = none ∧
    scrollValueGet (scrollToPipeline s v) =
      max 0 (min v (s.contentSize - s.visibleSize)) :=
  ⟨rfl, rfl⟩

end CustomScroll
